import Mathlib

/-!
Verification of the NYC Airbnb dashboard's data pipeline
(`qt_app/core/data_manager.py`, class `DataManager`).

The dataframe-backed engine is shallowly embedded: a pandas row becomes a
Lean structure, a dataframe becomes a `List` of rows, boolean masks become
`List.filter`, and pandas NaN results of aggregations over empty data are
modelled as `Option.none`.  Prices and other float columns are modelled as
exact rationals.
-/

namespace AirbnbDM

/-- Raw `last_review` cell before cleaning: a parseable date (modelled by
its year and month), an unparsable string, or a missing value.
`pd.to_datetime(..., errors='coerce')` maps the latter two to `NaT`. -/
inductive LastReviewCell where
  | date (year month : ℤ)
  | unparsable
  | missing
deriving DecidableEq, Repr

/-- The `pd.to_datetime(df['last_review'], errors='coerce')`: unparsable and
missing cells coerce to null (`NaT`), dates survive. -/
def parseLastReview : LastReviewCell → Option (ℤ × ℤ)
  | .date y m => some (y, m)
  | .unparsable => none
  | .missing => none

/-- One row of the raw CSV, before `DataManager.process_dataframe`.
Nullable float columns are `Option ℚ`; nullable string columns `Option String`. -/
structure RawRow where
  id : ℤ
  name : Option String
  host_id : ℤ
  host_name : Option String
  neighbourhood_group : String
  neighbourhood : String
  latitude : Option ℚ
  longitude : Option ℚ
  room_type : String
  price : Option ℚ
  minimum_nights : ℤ
  number_of_reviews : ℤ
  last_review : LastReviewCell
  reviews_per_month : Option ℚ
  calculated_host_listings_count : ℤ
  availability_365 : ℤ
deriving DecidableEq, Repr

/-- One row of the enriched base dataset, after `process_dataframe`.
`price` is plain `ℚ` because the cleaning step drops null prices. -/
structure Row where
  id : ℤ
  name : Option String
  host_id : ℤ
  host_name : Option String
  neighbourhood_group : String
  neighbourhood : String
  latitude : ℚ
  longitude : ℚ
  room_type : String
  price : ℚ
  minimum_nights : ℤ
  number_of_reviews : ℤ
  last_review : Option (ℤ × ℤ)
  reviews_per_month : Option ℚ
  calculated_host_listings_count : ℤ
  availability_365 : ℤ
  review_month : String
  review_year : Option ℤ
  is_commercial : Bool
  price_category : Option String
  host_listing_count : ℤ
  host_size : Option String
  host_category : Option String
  value_score : ℚ
  estimated_annual_revenue : ℚ
deriving DecidableEq, Repr

/-- The `df[(df['price'] >= 10) & (df['price'] <= 1000)]`: a pandas comparison
against NaN is false, so a null price already fails this mask. -/
def priceBandOk (r : RawRow) : Bool :=
  match r.price with
  | some p => decide (10 ≤ p) && decide (p ≤ 1000)
  | none => false

/-- The `df[df['minimum_nights'] < 31]`. -/
def minNightsOk (r : RawRow) : Bool :=
  decide (r.minimum_nights < 31)

/-- The `df.dropna(subset=['latitude','longitude','price'])`. -/
def coordsPriceNotNull (r : RawRow) : Bool :=
  r.latitude.isSome && r.longitude.isSome && r.price.isSome

/-- The three row-dropping steps of `process_dataframe`, in source order:
price band, then minimum nights, then the null check. -/
def cleanRows (raw : List RawRow) : List RawRow :=
  ((raw.filter priceBandOk).filter minNightsOk).filter coordsPriceNotNull

/-- The `pd.cut(price, bins=[0,50,100,200,500,1000], labels=[...])`:
right-closed buckets; out-of-range values map to NaN (`none`). -/
def priceCut (p : ℚ) : Option String :=
  if 0 < p ∧ p ≤ 50 then some "Budget ($0-50)"
  else if 50 < p ∧ p ≤ 100 then some "Economy ($50-100)"
  else if 100 < p ∧ p ≤ 200 then some "Mid-range ($100-200)"
  else if 200 < p ∧ p ≤ 500 then some "Upscale ($200-500)"
  else if 500 < p ∧ p ≤ 1000 then some "Luxury ($500+)"
  else none

/-- The `pd.cut(c, bins=[0,1,5,10,inf], labels=['Single (1)','Small (2-5)',
'Medium (6-10)','Mega (10+)'])`: right-closed buckets, used for both
`host_size` and `host_category`. -/
def hostCut (c : ℤ) : Option String :=
  if 0 < c ∧ c ≤ 1 then some "Single (1)"
  else if 1 < c ∧ c ≤ 5 then some "Small (2-5)"
  else if 5 < c ∧ c ≤ 10 then some "Medium (6-10)"
  else if 10 < c then some "Mega (10+)"
  else none

/-- The `df['last_review'].dt.to_period('M').astype(str)`: a null date prints
as the string `"NaT"`, a real date as `"YYYY-MM"`. -/
def reviewMonthString : Option (ℤ × ℤ) → String
  | none => "NaT"
  | some (y, m) =>
      toString y ++ "-" ++ (if m < 10 then "0" else "") ++ toString m

/-- The derived-column computation of `process_dataframe` for one surviving
row; `survivors` is the whole cleaned table, needed for the dataset-wide
`host_id.value_counts()` behind `host_listing_count`. -/
def deriveRow (survivors : List RawRow) (r : RawRow) : Row :=
  let p : ℚ := r.price.getD 0
  let lastReview := parseLastReview r.last_review
  let hostListingCount : ℤ :=
    ((survivors.filter (fun s => s.host_id = r.host_id)).length : ℤ)
  { id := r.id
    name := r.name
    host_id := r.host_id
    host_name := r.host_name
    neighbourhood_group := r.neighbourhood_group
    neighbourhood := r.neighbourhood
    latitude := r.latitude.getD 0
    longitude := r.longitude.getD 0
    room_type := r.room_type
    price := p
    minimum_nights := r.minimum_nights
    number_of_reviews := r.number_of_reviews
    last_review := lastReview
    reviews_per_month := r.reviews_per_month
    calculated_host_listings_count := r.calculated_host_listings_count
    availability_365 := r.availability_365
    review_month := reviewMonthString lastReview
    review_year := lastReview.map Prod.fst
    is_commercial :=
      decide (r.availability_365 > 300) || decide (r.calculated_host_listings_count > 5)
    price_category := priceCut p
    host_listing_count := hostListingCount
    host_size := hostCut hostListingCount
    host_category := hostCut r.calculated_host_listings_count
    value_score := (r.number_of_reviews : ℚ) / (p + 1) * 100
    estimated_annual_revenue := p * (r.availability_365 : ℚ) * (0.7 : ℚ) }

/-- The `DataManager.process_dataframe`: outlier filtering, null dropping, then
all derived columns computed over the surviving rows only. -/
def process_dataframe (raw : List RawRow) : List Row :=
  let survivors := cleanRows raw
  survivors.map (deriveRow survivors)

/-- The filter selection handed to `apply_filters`.  A `none` field models
a key absent from the Python `filters` dict. -/
structure Filters where
  neighbourhood_group : Option (List String)
  neighbourhood : Option String
  room_type : Option (List String)
  price_range : Option (ℚ × ℚ)
  min_nights : Option ℤ
  min_reviews : Option ℤ
  host_category : Option String
  commercial_only : Option Bool
deriving DecidableEq, Repr

/-- The all-`none` filter dict `{}`. -/
def Filters.empty : Filters :=
  ⟨none, none, none, none, none, none, none, none⟩

/-- The `if 'neighbourhood_group' in filters and filters['neighbourhood_group']:
mask &= df['neighbourhood_group'].isin(...)` — an absent key or an empty
(falsy) list leaves the mask untouched. -/
def clauseNeighbourhoodGroup (f : Filters) (r : Row) : Bool :=
  match f.neighbourhood_group with
  | some l => if l.isEmpty then true else l.contains r.neighbourhood_group
  | none => true

/-- The `if ... filters['neighbourhood'] and filters['neighbourhood'] != 'all'`. -/
def clauseNeighbourhood (f : Filters) (r : Row) : Bool :=
  match f.neighbourhood with
  | some s => if s = "" ∨ s = "all" then true else r.neighbourhood == s
  | none => true

/-- The `if 'room_type' in filters and filters['room_type']:`. -/
def clauseRoomType (f : Filters) (r : Row) : Bool :=
  match f.room_type with
  | some l => if l.isEmpty then true else l.contains r.room_type
  | none => true

/-- The `if 'price_range' in filters:` — presence alone activates the clause. -/
def clausePriceRange (f : Filters) (r : Row) : Bool :=
  match f.price_range with
  | some (lo, hi) => decide (lo ≤ r.price) && decide (r.price ≤ hi)
  | none => true

/-- The `if 'min_nights' in filters:` — presence alone activates the clause. -/
def clauseMinNights (f : Filters) (r : Row) : Bool :=
  match f.min_nights with
  | some m => decide (r.minimum_nights ≤ m)
  | none => true

/-- The `if 'min_reviews' in filters and filters['min_reviews'] > 0:`. -/
def clauseMinReviews (f : Filters) (r : Row) : Bool :=
  match f.min_reviews with
  | some m => if m > 0 then decide (r.number_of_reviews ≥ m) else true
  | none => true

/-- The `if ... filters['host_category'] and filters['host_category'] != 'all'`;
the pandas equality `df['host_category'] == s` is false on a NaN cell. -/
def clauseHostCategory (f : Filters) (r : Row) : Bool :=
  match f.host_category with
  | some s => if s = "" ∨ s = "all" then true else r.host_category == some s
  | none => true

/-- The `if 'commercial_only' in filters and filters['commercial_only']:`. -/
def clauseCommercialOnly (f : Filters) (r : Row) : Bool :=
  match f.commercial_only with
  | some b => if b then r.is_commercial else true
  | none => true

/-- The accumulated boolean mask of `apply_filters` for one row: the
conjunction of the eight clause masks. -/
def rowMask (f : Filters) (r : Row) : Bool :=
  clauseNeighbourhoodGroup f r && clauseNeighbourhood f r && clauseRoomType f r &&
  clausePriceRange f r && clauseMinNights f r && clauseMinReviews f r &&
  clauseHostCategory f r && clauseCommercialOnly f r

/-- The `self.df[mask]` with the fully accumulated mask (the interim assignment
at the room-type step is overwritten before it is ever observed). -/
def filterRows (f : Filters) (df : List Row) : List Row :=
  df.filter (rowMask f)

/-- The signals a `DataManager` can emit during `apply_filters`. -/
inductive Sig where
  | dataFiltered
  | filtersResultedEmpty
deriving DecidableEq, Repr

/-- The mutable state of a `DataManager` that has loaded a dataset:
`self.df`, `self.filtered_df` and `self._filters`. -/
structure LoadedState where
  df : List Row
  filtered_df : List Row
  filtersState : Filters
deriving DecidableEq, Repr

/-- The `DataManager.apply_filters`: rebuild the mask against the base `df`;
if the result is empty, keep the previous `filtered_df` and emit
`filters_resulted_empty`, otherwise install the result and emit
`data_filtered`.  Returns the new state and the emitted signals in order. -/
def apply_filters (st : LoadedState) (f : Filters) : LoadedState × List Sig :=
  let previous := st.filtered_df
  let newFiltered := filterRows f st.df
  if newFiltered.isEmpty then
    ({ df := st.df, filtered_df := previous, filtersState := f },
     [Sig.filtersResultedEmpty])
  else
    ({ df := st.df, filtered_df := newFiltered, filtersState := f },
     [Sig.dataFiltered])

/-! ### Aggregation helpers

Pandas/numpy aggregation primitives over exact rationals.  A pandas mean,
median or std of an empty column is NaN; NaN results are modelled as
`Option.none`. -/

/-- Mean of a float column; NaN (`none`) on an empty column. -/
def meanQ (xs : List ℚ) : Option ℚ :=
  if xs.isEmpty then none else some (xs.sum / (xs.length : ℚ))

/-- Pandas median: sort ascending, middle element, or the mean of the two
middle elements for an even count; NaN (`none`) on an empty column. -/
def medianQ (xs : List ℚ) : Option ℚ :=
  if xs.isEmpty then none
  else
    let s := List.insertionSort (· ≤ ·) xs
    let n := s.length
    some (if n % 2 = 1 then s.getD (n / 2) 0
          else (s.getD (n / 2 - 1) 0 + s.getD (n / 2) 0) / 2)

/-- The `round(x, 2)` on a float result (the half-even/half-up difference is
outside every stated property). -/
def roundTo2 (x : ℚ) : ℚ := (⌊x * 100 + 1 / 2⌋ : ℚ) / 100

/-- The `round(x, 1)`. -/
def roundTo1 (x : ℚ) : ℚ := (⌊x * 10 + 1 / 2⌋ : ℚ) / 10

/-- The `DataFrame.nlargest(n, col)` / `sort_values(col, ascending=False)`:
sort descending on a rational key.  Insertion sort is stable, matching
`nlargest`'s keep-first tie policy. -/
def sortDescBy {α : Type} (key : α → ℚ) (l : List α) : List α :=
  List.insertionSort (fun a b => key b ≤ key a) l

/-- The `sorted(column.unique().tolist())`: distinct strings in ascending order. -/
def sortedDedupStr (l : List String) : List String :=
  List.insertionSort (· ≤ ·) l.dedup

/-- Ascending lexicographic order on `(String, String)` group keys, matching
the sorted group keys a pandas two-column `groupby` produces. -/
def pairLeStr (a b : String × String) : Prop :=
  a.1 < b.1 ∨ (a.1 = b.1 ∧ a.2 ≤ b.2)

instance : DecidableRel pairLeStr := fun a b => by
  unfold pairLeStr; infer_instance

/-- Ascending lexicographic order on `(year, month)` keys. -/
def pairLeZ (a b : ℤ × ℤ) : Prop :=
  a.1 < b.1 ∨ (a.1 = b.1 ∧ a.2 ≤ b.2)

instance : DecidableRel pairLeZ := fun a b => by
  unfold pairLeZ; infer_instance

/-! ### Query catalog

Each query takes the manager's `filtered_df` as `Option (List Row)`:
`none` models the `self.filtered_df is None` state of a manager that never
loaded data. -/

/-- Result record of `get_stats`. -/
structure SummaryStats where
  total_listings : ℕ
  avg_price : Option ℚ
  median_price : Option ℚ
  total_hosts : ℕ
  avg_reviews : Option ℚ
  total_reviews : ℤ
  commercial_count : ℕ
  avg_availability : Option ℚ
deriving DecidableEq, Repr

/-- The `DataManager.get_stats` (the `is_commercial` column always exists after
`process_dataframe`, so the column-presence guard is always taken). -/
def get_stats (fd : Option (List Row)) : Option SummaryStats :=
  match fd with
  | none => none
  | some l =>
      some { total_listings := l.length
             avg_price := meanQ (l.map (·.price))
             median_price := medianQ (l.map (·.price))
             total_hosts := (l.map (·.host_id)).dedup.length
             avg_reviews := meanQ (l.map (fun r => (r.number_of_reviews : ℚ)))
             total_reviews := (l.map (·.number_of_reviews)).sum
             commercial_count := l.countP (·.is_commercial)
             avg_availability := meanQ (l.map (fun r => (r.availability_365 : ℚ))) }

/-- One output row of `get_neighbourhood_stats`. -/
structure NGStat where
  neighbourhood_group : String
  count : ℕ
  price_mean : Option ℚ
  price_median : Option ℚ
  reviews_sum : ℤ
  availability_mean : Option ℚ
deriving DecidableEq, Repr

/-- The `DataManager.get_neighbourhood_stats`: `groupby('neighbourhood_group')`
with sorted group keys, aggregates rounded to 2 decimals. -/
def get_neighbourhood_stats (fd : Option (List Row)) : List NGStat :=
  match fd with
  | none => []
  | some l =>
      (sortedDedupStr (l.map (·.neighbourhood_group))).map fun k =>
        let g := l.filter (fun r => r.neighbourhood_group == k)
        { neighbourhood_group := k
          count := g.length
          price_mean := (meanQ (g.map (·.price))).map roundTo2
          price_median := (medianQ (g.map (·.price))).map roundTo2
          reviews_sum := (g.map (·.number_of_reviews)).sum
          availability_mean :=
            (meanQ (g.map (fun r => (r.availability_365 : ℚ)))).map roundTo2 }

/-- One output row of `get_room_type_stats`. -/
structure RTStat where
  room_type : String
  count : ℕ
  price_mean : Option ℚ
  price_median : Option ℚ
  reviews_mean : Option ℚ
deriving DecidableEq, Repr

/-- The `DataManager.get_room_type_stats`. -/
def get_room_type_stats (fd : Option (List Row)) : List RTStat :=
  match fd with
  | none => []
  | some l =>
      (sortedDedupStr (l.map (·.room_type))).map fun k =>
        let g := l.filter (fun r => r.room_type == k)
        { room_type := k
          count := g.length
          price_mean := (meanQ (g.map (·.price))).map roundTo2
          price_median := (medianQ (g.map (·.price))).map roundTo2
          reviews_mean :=
            (meanQ (g.map (fun r => (r.number_of_reviews : ℚ)))).map roundTo2 }

/-- The `np.histogram(prices, bins=50)`: 50 equal-width bins between min and
max (a zero-width range is widened by 0.5 on each side, an empty input
uses the default range (0, 1)); every bin is left-closed/right-open except
the last, which is closed. -/
def histogram50 (prices : List ℚ) : List ℕ × List ℚ :=
  let lo := if prices.isEmpty then 0 else prices.foldr min (prices.headD 0)
  let hi := if prices.isEmpty then 1 else prices.foldr max (prices.headD 0)
  let lo' := if lo = hi then lo - 1 / 2 else lo
  let hi' := if lo = hi then hi + 1 / 2 else hi
  let edge : ℕ → ℚ := fun i => lo' + (hi' - lo') * (i : ℚ) / 50
  let counts := (List.range 50).map fun i =>
    prices.countP fun p =>
      decide (edge i ≤ p) &&
      (decide (p < edge (i + 1)) || (i == 49 && decide (p ≤ edge 50)))
  (counts, (List.range 51).map edge)

/-- The `DataManager.get_price_distribution`. -/
def get_price_distribution (fd : Option (List Row)) : List ℕ × List ℚ :=
  match fd with
  | none => ([], [])
  | some l => histogram50 (l.map (·.price))

/-- One output row of `get_top_hosts`. -/
structure HostStat where
  host_id : ℤ
  host_name : Option String
  listing_count : ℕ
  avg_price : Option ℚ
  total_reviews : ℤ
deriving DecidableEq, Repr

/-- The `DataManager.get_top_hosts`: `groupby('host_id')` (sorted keys), `first`
host name, count/mean/sum aggregates, then `nlargest(n, 'listing_count')`. -/
def get_top_hosts (n : ℕ) (fd : Option (List Row)) : List HostStat :=
  match fd with
  | none => []
  | some l =>
      let keys := (List.insertionSort (· ≤ ·) (l.map (·.host_id)).dedup)
      let stats := keys.map fun h =>
        let g := l.filter (fun r => r.host_id == h)
        { host_id := h
          host_name := match g.head? with | some r => r.host_name | none => none
          listing_count := g.length
          avg_price := meanQ (g.map (·.price))
          total_reviews := (g.map (·.number_of_reviews)).sum }
      (sortDescBy (fun s => (s.listing_count : ℚ)) stats).take n

/-- One output row of `get_top_value_listings` (the projected columns). -/
structure TopValueEntry where
  name : Option String
  neighbourhood : String
  price : ℚ
  number_of_reviews : ℤ
  room_type : String
  value_score : ℚ
  minimum_nights : ℤ
deriving DecidableEq, Repr

/-- The recomputed per-row entry of `get_top_value_listings`: the
`value_score` column is overwritten with `reviews / (price + 1)` —
unconditionally, per the `or True` in the source. -/
def topValueEntry (r : Row) : TopValueEntry :=
  { name := r.name
    neighbourhood := r.neighbourhood
    price := r.price
    number_of_reviews := r.number_of_reviews
    room_type := r.room_type
    value_score := (r.number_of_reviews : ℚ) / (r.price + 1)
    minimum_nights := r.minimum_nights }

/-- The `DataManager.get_top_value_listings`: restrict to `minimum_nights <= 7`,
recompute the value score without the ×100 scale, rank descending, take `n`. -/
def get_top_value_listings (n : ℕ) (fd : Option (List Row)) : List TopValueEntry :=
  match fd with
  | none => []
  | some l =>
      let dfValue := l.filter (fun r => decide (r.minimum_nights ≤ 7))
      if dfValue.isEmpty then []
      else (sortDescBy (·.value_score) (dfValue.map topValueEntry)).take n

/-- One partition of `get_commercial_stats` (`median ... if len > 0 else 0`). -/
structure PartitionStats where
  count : ℕ
  median_price : ℚ
  median_availability : ℚ
  median_reviews : ℚ
deriving DecidableEq, Repr

/-- Aggregates of one `is_commercial` partition. -/
def partitionStats (g : List Row) : PartitionStats :=
  { count := g.length
    median_price := (medianQ (g.map (·.price))).getD 0
    median_availability :=
      (medianQ (g.map (fun r => (r.availability_365 : ℚ)))).getD 0
    median_reviews :=
      (medianQ (g.map (fun r => (r.number_of_reviews : ℚ)))).getD 0 }

/-- The `DataManager.get_commercial_stats`. -/
def get_commercial_stats (fd : Option (List Row)) :
    Option (PartitionStats × PartitionStats) :=
  match fd with
  | none => none
  | some l =>
      some (partitionStats (l.filter (·.is_commercial)),
            partitionStats (l.filter (fun r => !r.is_commercial)))

/-- One output row of `get_roi_data`. -/
structure ROIEntry where
  neighbourhood_group : String
  room_type : String
  price : ℚ
  availability_365 : ℚ
  number_of_reviews : ℚ
  estimated_annual_revenue : ℚ
deriving DecidableEq, Repr

/-- The per-segment aggregate of `get_roi_data`: medians over the group of
rows sharing a `(neighbourhood_group, room_type)` key (every group a
`groupby` produces is nonempty, so the `getD 0` defaults are never taken). -/
def roiEntry (l : List Row) (k : String × String) : ROIEntry :=
  let g := l.filter (fun r => r.neighbourhood_group == k.1 && r.room_type == k.2)
  let mp := (medianQ (g.map (·.price))).getD 0
  let ma := (medianQ (g.map (fun r => (r.availability_365 : ℚ)))).getD 0
  let mr := (medianQ (g.map (fun r => (r.number_of_reviews : ℚ)))).getD 0
  { neighbourhood_group := k.1
    room_type := k.2
    price := mp
    availability_365 := ma
    number_of_reviews := mr
    estimated_annual_revenue := mp * ma * (0.7 : ℚ) }

/-- The `DataManager.get_roi_data`: `groupby(['neighbourhood_group','room_type'])`
medians, `revenue = price * availability * 0.7`, sort descending by revenue,
`head(top_n)`. -/
def get_roi_data (top_n : ℕ) (fd : Option (List Row)) : List ROIEntry :=
  match fd with
  | none => []
  | some l =>
      let keys := List.insertionSort pairLeStr
        ((l.map fun r => (r.neighbourhood_group, r.room_type)).dedup)
      let entries := keys.map (roiEntry l)
      (sortDescBy (·.estimated_annual_revenue) entries).take top_n

/-- The fixed category labels of the categorical `host_category` column. -/
def hostCategoryLabels : List String :=
  ["Single (1)", "Small (2-5)", "Medium (6-10)", "Mega (10+)"]

/-- The `DataManager.get_host_category_stats`: a `groupby` over the categorical
`host_category` column enumerates every declared category (zero counts
included) and drops NaN keys. -/
def get_host_category_stats (fd : Option (List Row)) : List (String × ℕ) :=
  match fd with
  | none => []
  | some l =>
      hostCategoryLabels.map fun c =>
        (c, (l.filter (fun r => r.host_category == some c)).length)

/-- The `DataManager.get_monthly_review_trend`: restrict to rows with a non-null
`last_review`, group by calendar month (sorted keys), count. -/
def get_monthly_review_trend (fd : Option (List Row)) : List (String × ℕ) :=
  match fd with
  | none => []
  | some l =>
      let temporal := l.filter (·.last_review.isSome)
      if temporal.isEmpty then []
      else
        let keys := List.insertionSort pairLeZ
          ((temporal.filterMap (·.last_review)).dedup)
        keys.map fun ym =>
          (reviewMonthString (some ym),
           (temporal.filter (fun r => r.last_review == some ym)).length)

/-- Stand-in for `df.sample(n=sample_size, random_state=42)`: a fixed-seed
deterministic selection of `sample_size` rows, modelled as the first
`sample_size` rows (no stated property depends on which rows the seeded
sampler picks, only on the guard around it). -/
def sampleRows (sample_size : ℕ) (l : List Row) : List Row :=
  l.take sample_size

/-- The `DataManager.get_map_data`. -/
def get_map_data (sample_size : ℕ) (fd : Option (List Row)) : List Row :=
  match fd with
  | none => []
  | some l =>
      if l.length > sample_size then sampleRows sample_size l else l

/-- The `DataManager.get_missing_data_stats`: per key column, null count and
percentage, reported only when the count is positive. -/
def get_missing_data_stats (fd : Option (List Row)) : List (String × ℕ × ℚ) :=
  match fd with
  | none => []
  | some l =>
      let total := l.length
      let cols : List (String × ℕ) :=
        [("name", l.countP (·.name.isNone)),
         ("host_name", l.countP (·.host_name.isNone)),
         ("last_review", l.countP (·.last_review.isNone)),
         ("reviews_per_month", l.countP (·.reviews_per_month.isNone))]
      cols.filterMap fun c =>
        if c.2 > 0 then some (c.1, c.2, roundTo1 ((c.2 : ℚ) / (total : ℚ) * 100))
        else none

/-- Column count of the enriched dataframe: the 16 CSV columns plus the 9
derived columns added by `process_dataframe`. -/
def numColumns : ℕ := 25

/-- Null cells of one enriched row: exactly the nullable columns
(`review_month` holds the string "NaT" rather than a null). -/
def nullCells (r : Row) : ℕ :=
  [r.name.isNone, r.host_name.isNone, r.last_review.isNone,
   r.reviews_per_month.isNone, r.review_year.isNone, r.price_category.isNone,
   r.host_size.isNone, r.host_category.isNone].countP id

/-- Result of `get_data_quality_score`: `noData` models the
`{'score': 0, 'details': {}}` dict of the never-loaded manager; `scored`
models the main path, whose 0/0 completeness on an empty view is the NaN
(`none`) value. -/
inductive QualityResult where
  | noData
  | scored (score : Option ℚ) (total_records : ℕ) (missing_cells : ℕ)
      (completeness : Option ℚ) (outliers_filtered : ℕ)
deriving DecidableEq, Repr

/-- The `DataManager.get_data_quality_score`. -/
def get_data_quality_score (fd : Option (List Row)) : QualityResult :=
  match fd with
  | none => .noData
  | some l =>
      let total_rows := l.length
      let total_cells := total_rows * numColumns
      let missing_cells := (l.map nullCells).sum
      let completeness : Option ℚ :=
        if total_cells = 0 then none
        else some ((((total_cells : ℚ) - (missing_cells : ℚ)) / (total_cells : ℚ)) * 100)
      let price_outliers :=
        l.countP fun r => decide (r.price < 10) || decide (r.price > 1000)
      .scored (completeness.map roundTo1) total_rows missing_cells
        (completeness.map roundTo1) price_outliers

/-- Executable rational stand-in for numpy's irrational square root (exact
on perfect squares; no stated property inspects a square root computed from
a nonempty view, only the NaN propagation from an empty one). -/
def sqrtApproxQ (x : ℚ) : ℚ :=
  if x ≤ 0 then 0 else ((Nat.sqrt (x.num.toNat * x.den) : ℚ) / (x.den : ℚ))

/-- The `np.std` (population standard deviation); NaN (`none`) on empty input. -/
def stdQ (xs : List ℚ) : Option ℚ :=
  match meanQ xs with
  | none => none
  | some m =>
      some (sqrtApproxQ ((xs.map (fun x => (x - m) ^ 2)).sum / (xs.length : ℚ)))

/-- One confidence interval of `get_uncertainty_indicators`. -/
structure CIStats where
  mean : Option ℚ
  ci_lower : Option ℚ
  ci_upper : Option ℚ
  margin_of_error : Option ℚ
deriving DecidableEq, Repr

/-- The `mean ± 1.96 * std / sqrt(n)` over a float column, all four fields NaN
(`none`) exactly when the column is empty. -/
def ciStats (xs : List ℚ) : CIStats :=
  match meanQ xs, stdQ xs with
  | some m, some s =>
      let margin := (1.96 : ℚ) * (s / sqrtApproxQ (xs.length : ℚ))
      { mean := some (roundTo2 m)
        ci_lower := some (roundTo2 (m - margin))
        ci_upper := some (roundTo2 (m + margin))
        margin_of_error := some (roundTo2 margin) }
  | _, _ => { mean := none, ci_lower := none, ci_upper := none,
              margin_of_error := none }

/-- The `DataManager.get_uncertainty_indicators` (`none` models the `{}` of the
never-loaded manager; the `estimated_annual_revenue` column always exists
after `process_dataframe`, so the absent-column fallback is dead code). -/
def get_uncertainty_indicators (fd : Option (List Row)) :
    Option (CIStats × CIStats) :=
  match fd with
  | none => none
  | some l =>
      some (ciStats (l.map (·.price)),
            ciStats (l.map (·.estimated_annual_revenue)))

/-- The dynamically typed `borough` argument of
`get_neighbourhoods_for_borough`: a single string, a list, or `None`. -/
inductive BoroughArg where
  | strArg (s : String)
  | listArg (l : List String)
  | noneArg
deriving DecidableEq, Repr

/-- The `DataManager.get_neighbourhoods_for_borough`, reading the *base* `df`
(`none` models the never-loaded manager): `'all'`, the empty list and
`None` all yield the sorted distinct neighbourhoods of the whole dataset. -/
def get_neighbourhoods_for_borough (df : Option (List Row)) (b : BoroughArg) :
    List String :=
  match df with
  | none => []
  | some d =>
      match b with
      | .noneArg => sortedDedupStr (d.map (·.neighbourhood))
      | .strArg s =>
          if s = "all" then sortedDedupStr (d.map (·.neighbourhood))
          else sortedDedupStr
            ((d.filter (fun r => r.neighbourhood_group == s)).map (·.neighbourhood))
      | .listArg l =>
          if l.isEmpty then sortedDedupStr (d.map (·.neighbourhood))
          else sortedDedupStr
            ((d.filter (fun r => l.contains r.neighbourhood_group)).map
              (·.neighbourhood))

/-! ### Characterization of the filter clauses -/

theorem clauseNeighbourhoodGroup_iff (f : Filters) (r : Row) :
    clauseNeighbourhoodGroup f r = true ↔
      ∀ l ∈ f.neighbourhood_group, l ≠ [] → r.neighbourhood_group ∈ l := by
  unfold clauseNeighbourhoodGroup
  cases f.neighbourhood_group with
  | none => simp
  | some l =>
      by_cases hl : l = [] <;>
        simp [hl, List.isEmpty_iff, List.elem_iff]

theorem clauseNeighbourhood_iff (f : Filters) (r : Row) :
    clauseNeighbourhood f r = true ↔
      ∀ s ∈ f.neighbourhood, s ≠ "" → s ≠ "all" → r.neighbourhood = s := by
  unfold clauseNeighbourhood
  cases f.neighbourhood with
  | none => simp
  | some s =>
      by_cases hs : s = "" ∨ s = "all"
      · rcases hs with hs | hs <;> simp [hs]
      · push_neg at hs
        simp [hs.1, hs.2, beq_iff_eq]

theorem clauseRoomType_iff (f : Filters) (r : Row) :
    clauseRoomType f r = true ↔
      ∀ l ∈ f.room_type, l ≠ [] → r.room_type ∈ l := by
  unfold clauseRoomType
  cases f.room_type with
  | none => simp
  | some l =>
      by_cases hl : l = [] <;>
        simp [hl, List.isEmpty_iff, List.elem_iff]

theorem clausePriceRange_iff (f : Filters) (r : Row) :
    clausePriceRange f r = true ↔
      ∀ p ∈ f.price_range, p.1 ≤ r.price ∧ r.price ≤ p.2 := by
  unfold clausePriceRange
  cases f.price_range with
  | none => simp
  | some p => cases p; simp

theorem clauseMinNights_iff (f : Filters) (r : Row) :
    clauseMinNights f r = true ↔
      ∀ m ∈ f.min_nights, r.minimum_nights ≤ m := by
  unfold clauseMinNights
  cases f.min_nights <;> simp

theorem clauseMinReviews_iff (f : Filters) (r : Row) :
    clauseMinReviews f r = true ↔
      ∀ m ∈ f.min_reviews, 0 < m → m ≤ r.number_of_reviews := by
  unfold clauseMinReviews
  cases f.min_reviews with
  | none => simp
  | some m => by_cases hm : 0 < m <;> simp [hm, ge_iff_le, not_lt.mp]

theorem clauseHostCategory_iff (f : Filters) (r : Row) :
    clauseHostCategory f r = true ↔
      ∀ s ∈ f.host_category, s ≠ "" → s ≠ "all" → r.host_category = some s := by
  unfold clauseHostCategory
  cases f.host_category with
  | none => simp
  | some s =>
      by_cases hs : s = "" ∨ s = "all"
      · rcases hs with hs | hs <;> simp [hs]
      · push_neg at hs
        simp [hs.1, hs.2, beq_iff_eq]

theorem clauseCommercialOnly_iff (f : Filters) (r : Row) :
    clauseCommercialOnly f r = true ↔
      (f.commercial_only = some true → r.is_commercial = true) := by
  unfold clauseCommercialOnly
  cases h : f.commercial_only with
  | none => simp
  | some b => cases b <;> simp

/-- C1: `apply_filters` retains exactly the rows satisfying the
conjunction of the eight clauses, each clause vacuously true when its
filter field is unset (`none`) or empty/falsy. -/
theorem c1_filter_retains_conjunction (f : Filters) (df : List Row) (r : Row) :
    r ∈ filterRows f df ↔
      r ∈ df ∧
      (∀ l ∈ f.neighbourhood_group, l ≠ [] → r.neighbourhood_group ∈ l) ∧
      (∀ s ∈ f.neighbourhood, s ≠ "" → s ≠ "all" → r.neighbourhood = s) ∧
      (∀ l ∈ f.room_type, l ≠ [] → r.room_type ∈ l) ∧
      (∀ p ∈ f.price_range, p.1 ≤ r.price ∧ r.price ≤ p.2) ∧
      (∀ m ∈ f.min_nights, r.minimum_nights ≤ m) ∧
      (∀ m ∈ f.min_reviews, 0 < m → m ≤ r.number_of_reviews) ∧
      (∀ s ∈ f.host_category, s ≠ "" → s ≠ "all" → r.host_category = some s) ∧
      (f.commercial_only = some true → r.is_commercial = true) := by
  rw [filterRows, List.mem_filter, rowMask]
  simp only [Bool.and_eq_true]
  rw [clauseNeighbourhoodGroup_iff, clauseNeighbourhood_iff, clauseRoomType_iff,
    clausePriceRange_iff, clauseMinNights_iff, clauseMinReviews_iff,
    clauseHostCategory_iff, clauseCommercialOnly_iff]
  tauto

/-! ### Concrete demonstration data -/

/-- A concrete enriched row (Manhattan, Entire home/apt, price 120). -/
def demoRow : Row :=
  { id := 1, name := some "a", host_id := 11, host_name := some "h"
    neighbourhood_group := "Manhattan", neighbourhood := "Harlem"
    latitude := 1, longitude := 2, room_type := "Entire home/apt"
    price := 120, minimum_nights := 2, number_of_reviews := 10
    last_review := none, reviews_per_month := none
    calculated_host_listings_count := 1, availability_365 := 310
    review_month := "NaT", review_year := none, is_commercial := true
    price_category := some "Mid-range ($100-200)", host_listing_count := 1
    host_size := some "Single (1)", host_category := some "Single (1)"
    value_score := 0, estimated_annual_revenue := 0 }

/-- A concrete raw row: the row "C" of the spec's load scenario
(`price=120, minimum_nights=2, availability_365=310,
calculated_host_listings_count=1`, unparsable `last_review`). -/
def rawDemo : RawRow :=
  { id := 3, name := some "C", host_id := 7, host_name := some "host"
    neighbourhood_group := "Brooklyn", neighbourhood := "Williamsburg"
    latitude := some 1, longitude := some 2, room_type := "Entire home/apt"
    price := some 120, minimum_nights := 2, number_of_reviews := 6
    last_review := .unparsable, reviews_per_month := none
    calculated_host_listings_count := 1, availability_365 := 310 }

/-- A manager state holding just `demoRow`, nothing filtered out. -/
def demoState : LoadedState :=
  { df := [demoRow], filtered_df := [demoRow], filtersState := Filters.empty }

/-- A filter selecting only the Bronx — it matches no row of `demoState`. -/
def bronxOnly : Filters :=
  { Filters.empty with neighbourhood_group := some ["Bronx"] }

/-! ### Cleaning-step helpers -/

/-- The combined survival predicate of the three row-dropping steps. -/
def survivesCleaning (r : RawRow) : Bool :=
  priceBandOk r && minNightsOk r && coordsPriceNotNull r

theorem priceBandOk_iff (r : RawRow) :
    priceBandOk r = true ↔ ∃ p, r.price = some p ∧ 10 ≤ p ∧ p ≤ 1000 := by
  rcases hp : r.price with _ | p <;> simp [priceBandOk, hp]

theorem mem_cleanRows (raw : List RawRow) (r : RawRow) :
    r ∈ cleanRows raw ↔
      r ∈ raw ∧ (∃ p, r.price = some p ∧ 10 ≤ p ∧ p ≤ 1000) ∧
      r.minimum_nights < 31 ∧ r.latitude.isSome ∧ r.longitude.isSome := by
  unfold cleanRows
  simp only [List.mem_filter, Bool.and_eq_true, priceBandOk_iff, minNightsOk,
    coordsPriceNotNull, decide_eq_true_iff]
  constructor
  · rintro ⟨⟨⟨hmem, hband⟩, hmin⟩, hcoords⟩
    exact ⟨hmem, hband, hmin, hcoords.1.1, hcoords.1.2⟩
  · rintro ⟨hmem, ⟨p, hp, h1, h2⟩, hmin, hlat, hlong⟩
    exact ⟨⟨⟨hmem, ⟨p, hp, h1, h2⟩⟩, hmin⟩, ⟨⟨hlat, hlong⟩, by simp [hp]⟩⟩

/-- C2: Empty-result guard: when the mask matches zero rows,
`apply_filters` keeps the previous filtered view and emits
`filters_resulted_empty` exactly once (and not `data_filtered`); otherwise
it installs the matching rows and emits `data_filtered`. -/
theorem c2_empty_result_guard (st : LoadedState) (f : Filters) :
    (filterRows f st.df = [] →
      (apply_filters st f).1.filtered_df = st.filtered_df ∧
      (apply_filters st f).2 = [Sig.filtersResultedEmpty]) ∧
    (filterRows f st.df ≠ [] →
      (apply_filters st f).1.filtered_df = filterRows f st.df ∧
      (apply_filters st f).2 = [Sig.dataFiltered]) := by
  constructor <;> intro h <;>
    simp [apply_filters, List.isEmpty_iff, h]

/-- Witness for C2: on `demoState`, the Bronx-only filter matches zero rows
(state kept, one empty signal), the all-pass filter matches `demoRow`
(state replaced, success signal). -/
theorem c2_empty_result_guard_witness :
    ((apply_filters demoState bronxOnly).1.filtered_df = demoState.filtered_df ∧
     (apply_filters demoState bronxOnly).2 = [Sig.filtersResultedEmpty]) ∧
    ((apply_filters demoState Filters.empty).1.filtered_df =
        filterRows Filters.empty demoState.df ∧
     (apply_filters demoState Filters.empty).2 = [Sig.dataFiltered]) :=
  ⟨(c2_empty_result_guard demoState bronxOnly).1 (by decide),
   (c2_empty_result_guard demoState Filters.empty).2 (by decide)⟩

/-- C3: Cleaning invariants: a raw row survives the cleaning steps iff
it is an input row (dropped, never clipped) with a non-null price in
[10, 1000], `minimum_nights < 31` and non-null coordinates; every derived
row satisfies the price band and nights bound; and the survival predicate
is insensitive to the `last_review` cell, so an unparsable date never drops
a row. -/
theorem c3_cleaning_invariants (raw : List RawRow) :
    (∀ r : RawRow, r ∈ cleanRows raw ↔
        r ∈ raw ∧ (∃ p, r.price = some p ∧ 10 ≤ p ∧ p ≤ 1000) ∧
        r.minimum_nights < 31 ∧ r.latitude.isSome ∧ r.longitude.isSome) ∧
    (∀ row ∈ process_dataframe raw,
        10 ≤ row.price ∧ row.price ≤ 1000 ∧ row.minimum_nights < 31) ∧
    (∀ (r : RawRow) (c : LastReviewCell),
        survivesCleaning { r with last_review := c } = survivesCleaning r) := by
  refine ⟨mem_cleanRows raw, fun row hrow => ?_, fun r c => ?_⟩
  · simp only [process_dataframe, List.mem_map] at hrow
    obtain ⟨r', hr', rfl⟩ := hrow
    obtain ⟨_, ⟨p, hp, h10, h1000⟩, hn, _⟩ := (mem_cleanRows raw r').mp hr'
    simp [deriveRow, hp]
    exact ⟨h10, h1000, hn⟩
  · unfold survivesCleaning priceBandOk minNightsOk coordsPriceNotNull
    rfl

/-- Witness for C3: the spec's scenario row C survives the load step with
its price intact and inside the band, despite its unparsable `last_review`. -/
theorem c3_cleaning_invariants_witness :
    10 ≤ (deriveRow (cleanRows [rawDemo]) rawDemo).price ∧
    (deriveRow (cleanRows [rawDemo]) rawDemo).price ≤ 1000 ∧
    (deriveRow (cleanRows [rawDemo]) rawDemo).minimum_nights < 31 :=
  (c3_cleaning_invariants [rawDemo]).2.1 _
    (List.mem_map_of_mem _ (by decide))

/-- C6: Idempotence of `apply_filters`: a second application of the
same `FilterSpec` reproduces the state (and even the emitted signals) of
the first, because the mask is always rebuilt against the base `df`. -/
theorem c6_apply_filters_idempotent (st : LoadedState) (f : Filters) :
    (apply_filters (apply_filters st f).1 f).1 = (apply_filters st f).1 ∧
    (apply_filters (apply_filters st f).1 f).2 = (apply_filters st f).2 := by
  by_cases h : (filterRows f st.df).isEmpty <;>
    simp [apply_filters, h]

/-- C8: Every derived row's `is_commercial` equals
`availability_365 > 300 OR calculated_host_listings_count > 5`; in
particular availability 310 with one host listing is flagged commercial. -/
theorem c8_is_commercial_rule (raw : List RawRow) (r : Row)
    (h : r ∈ process_dataframe raw) :
    (r.is_commercial = true ↔
      (300 < r.availability_365 ∨ 5 < r.calculated_host_listings_count)) ∧
    (r.availability_365 = 310 → r.calculated_host_listings_count = 1 →
      r.is_commercial = true) := by
  simp only [process_dataframe, List.mem_map] at h
  obtain ⟨r', _, rfl⟩ := h
  constructor
  · simp [deriveRow]
  · intro h1 h2
    simp only [deriveRow] at h1 h2 ⊢
    simp only [h1, h2] at *
    simp [h1, h2]

/-- Witness for C8: the spec's scenario row C (availability 310, one host
listing) is flagged commercial after the load step. -/
theorem c8_is_commercial_rule_witness :
    (deriveRow (cleanRows [rawDemo]) rawDemo).is_commercial = true :=
  (c8_is_commercial_rule [rawDemo] _ (List.mem_map_of_mem _ (by decide))).2
    rfl rfl

/-- Witness for C1: `demoRow` passes the all-`none` filter dict, every
clause being vacuously true. -/
theorem c1_filter_retains_conjunction_witness :
    demoRow ∈ filterRows Filters.empty [demoRow] :=
  (c1_filter_retains_conjunction Filters.empty [demoRow] demoRow).mpr
    ⟨List.Mem.head _, by simp [Filters.empty], by simp [Filters.empty],
     by simp [Filters.empty], by simp [Filters.empty], by simp [Filters.empty],
     by simp [Filters.empty], by simp [Filters.empty], by simp [Filters.empty]⟩

/-! ### Single-field tightening (monotonicity) -/

/-- The `f2` differs from `f1` in exactly one filter field, with the changed
field at least as restrictive in `f2`: a borough/room-type set shrinks to a
nonempty subset or is newly activated, a price range narrows or is newly
activated, the nights cap drops or is newly activated, the review floor
rises or is newly activated, a vacuous neighbourhood/host-category selector
("" / "all" / absent) becomes a concrete one, or the commercial-only flag
turns on. -/
inductive TightensOneField : Filters → Filters → Prop where
  | ngActivate (f : Filters) (l : List String) :
      TightensOneField { f with neighbourhood_group := none }
        { f with neighbourhood_group := some l }
  | ngShrink (f : Filters) (l1 l2 : List String) (hsub : l2 ⊆ l1) (hne : l2 ≠ []) :
      TightensOneField { f with neighbourhood_group := some l1 }
        { f with neighbourhood_group := some l2 }
  | nbActivate (f : Filters) (s : String) :
      TightensOneField { f with neighbourhood := none }
        { f with neighbourhood := some s }
  | nbFromVacuous (f : Filters) (s1 s2 : String) (hvac : s1 = "" ∨ s1 = "all") :
      TightensOneField { f with neighbourhood := some s1 }
        { f with neighbourhood := some s2 }
  | roomActivate (f : Filters) (l : List String) :
      TightensOneField { f with room_type := none }
        { f with room_type := some l }
  | roomShrink (f : Filters) (l1 l2 : List String) (hsub : l2 ⊆ l1) (hne : l2 ≠ []) :
      TightensOneField { f with room_type := some l1 }
        { f with room_type := some l2 }
  | priceActivate (f : Filters) (p : ℚ × ℚ) :
      TightensOneField { f with price_range := none }
        { f with price_range := some p }
  | priceNarrow (f : Filters) (lo1 hi1 lo2 hi2 : ℚ) (hlo : lo1 ≤ lo2) (hhi : hi2 ≤ hi1) :
      TightensOneField { f with price_range := some (lo1, hi1) }
        { f with price_range := some (lo2, hi2) }
  | nightsActivate (f : Filters) (m : ℤ) :
      TightensOneField { f with min_nights := none }
        { f with min_nights := some m }
  | nightsLower (f : Filters) (m1 m2 : ℤ) (h : m2 ≤ m1) :
      TightensOneField { f with min_nights := some m1 }
        { f with min_nights := some m2 }
  | reviewsActivate (f : Filters) (m : ℤ) :
      TightensOneField { f with min_reviews := none }
        { f with min_reviews := some m }
  | reviewsRaise (f : Filters) (m1 m2 : ℤ) (h : m1 ≤ m2) :
      TightensOneField { f with min_reviews := some m1 }
        { f with min_reviews := some m2 }
  | hostCatActivate (f : Filters) (s : String) :
      TightensOneField { f with host_category := none }
        { f with host_category := some s }
  | hostCatFromVacuous (f : Filters) (s1 s2 : String) (hvac : s1 = "" ∨ s1 = "all") :
      TightensOneField { f with host_category := some s1 }
        { f with host_category := some s2 }
  | commercialActivate (f : Filters) (b : Bool) :
      TightensOneField { f with commercial_only := none }
        { f with commercial_only := some b }
  | commercialTurnOn (f : Filters) (b : Bool) :
      TightensOneField { f with commercial_only := some false }
        { f with commercial_only := some b }

theorem filterRows_length_mono (df : List Row) (f1 f2 : Filters)
    (h : ∀ r : Row, rowMask f2 r = true → rowMask f1 r = true) :
    (filterRows f2 df).length ≤ (filterRows f1 df).length := by
  unfold filterRows
  rw [← List.countP_eq_length_filter, ← List.countP_eq_length_filter]
  exact List.countP_mono_left fun x _ hx => h x hx

theorem rowMask_tighten (f1 f2 : Filters) (h : TightensOneField f1 f2) (r : Row)
    (hr : rowMask f2 r = true) : rowMask f1 r = true := by
  cases h with
  | ngActivate f l =>
      simp only [rowMask, Bool.and_eq_true] at hr ⊢
      exact ⟨⟨⟨⟨⟨⟨⟨by simp [clauseNeighbourhoodGroup], hr.1.1.1.1.1.1.2⟩,
        hr.1.1.1.1.1.2⟩, hr.1.1.1.1.2⟩, hr.1.1.1.2⟩, hr.1.1.2⟩, hr.1.2⟩, hr.2⟩
  | ngShrink f l1 l2 hsub hne =>
      simp only [rowMask, Bool.and_eq_true] at hr ⊢
      refine ⟨⟨⟨⟨⟨⟨⟨?_, hr.1.1.1.1.1.1.2⟩,
        hr.1.1.1.1.1.2⟩, hr.1.1.1.1.2⟩, hr.1.1.1.2⟩, hr.1.1.2⟩, hr.1.2⟩, hr.2⟩
      have h2 := hr.1.1.1.1.1.1.1
      simp only [clauseNeighbourhoodGroup, List.isEmpty_iff, hne, if_false] at h2
      by_cases hl1 : l1 = []
      · exact absurd (hsub (List.elem_iff.mp h2)) (by simp [hl1])
      · simp only [clauseNeighbourhoodGroup, List.isEmpty_iff, hl1, if_false]
        exact List.elem_iff.mpr (hsub (List.elem_iff.mp h2))
  | nbActivate f s =>
      simp only [rowMask, Bool.and_eq_true] at hr ⊢
      exact ⟨⟨⟨⟨⟨⟨⟨hr.1.1.1.1.1.1.1, by simp [clauseNeighbourhood]⟩,
        hr.1.1.1.1.1.2⟩, hr.1.1.1.1.2⟩, hr.1.1.1.2⟩, hr.1.1.2⟩, hr.1.2⟩, hr.2⟩
  | nbFromVacuous f s1 s2 hvac =>
      simp only [rowMask, Bool.and_eq_true] at hr ⊢
      refine ⟨⟨⟨⟨⟨⟨⟨hr.1.1.1.1.1.1.1, ?_⟩,
        hr.1.1.1.1.1.2⟩, hr.1.1.1.1.2⟩, hr.1.1.1.2⟩, hr.1.1.2⟩, hr.1.2⟩, hr.2⟩
      rcases hvac with hv | hv <;> simp [clauseNeighbourhood, hv]
  | roomActivate f l =>
      simp only [rowMask, Bool.and_eq_true] at hr ⊢
      exact ⟨⟨⟨⟨⟨⟨⟨hr.1.1.1.1.1.1.1, hr.1.1.1.1.1.1.2⟩,
        by simp [clauseRoomType]⟩, hr.1.1.1.1.2⟩, hr.1.1.1.2⟩, hr.1.1.2⟩,
        hr.1.2⟩, hr.2⟩
  | roomShrink f l1 l2 hsub hne =>
      simp only [rowMask, Bool.and_eq_true] at hr ⊢
      refine ⟨⟨⟨⟨⟨⟨⟨hr.1.1.1.1.1.1.1, hr.1.1.1.1.1.1.2⟩, ?_⟩,
        hr.1.1.1.1.2⟩, hr.1.1.1.2⟩, hr.1.1.2⟩, hr.1.2⟩, hr.2⟩
      have h2 := hr.1.1.1.1.1.2
      simp only [clauseRoomType, List.isEmpty_iff, hne, if_false] at h2
      by_cases hl1 : l1 = []
      · exact absurd (hsub (List.elem_iff.mp h2)) (by simp [hl1])
      · simp only [clauseRoomType, List.isEmpty_iff, hl1, if_false]
        exact List.elem_iff.mpr (hsub (List.elem_iff.mp h2))
  | priceActivate f p =>
      simp only [rowMask, Bool.and_eq_true] at hr ⊢
      exact ⟨⟨⟨⟨⟨⟨⟨hr.1.1.1.1.1.1.1, hr.1.1.1.1.1.1.2⟩, hr.1.1.1.1.1.2⟩,
        by simp [clausePriceRange]⟩, hr.1.1.1.2⟩, hr.1.1.2⟩, hr.1.2⟩, hr.2⟩
  | priceNarrow f lo1 hi1 lo2 hi2 hlo hhi =>
      simp only [rowMask, Bool.and_eq_true] at hr ⊢
      refine ⟨⟨⟨⟨⟨⟨⟨hr.1.1.1.1.1.1.1, hr.1.1.1.1.1.1.2⟩, hr.1.1.1.1.1.2⟩, ?_⟩,
        hr.1.1.1.2⟩, hr.1.1.2⟩, hr.1.2⟩, hr.2⟩
      have h2 := hr.1.1.1.1.2
      simp only [clausePriceRange, Bool.and_eq_true, decide_eq_true_iff] at h2 ⊢
      exact ⟨le_trans hlo h2.1, le_trans h2.2 hhi⟩
  | nightsActivate f m =>
      simp only [rowMask, Bool.and_eq_true] at hr ⊢
      exact ⟨⟨⟨⟨⟨⟨⟨hr.1.1.1.1.1.1.1, hr.1.1.1.1.1.1.2⟩, hr.1.1.1.1.1.2⟩,
        hr.1.1.1.1.2⟩, by simp [clauseMinNights]⟩, hr.1.1.2⟩, hr.1.2⟩, hr.2⟩
  | nightsLower f m1 m2 hm =>
      simp only [rowMask, Bool.and_eq_true] at hr ⊢
      refine ⟨⟨⟨⟨⟨⟨⟨hr.1.1.1.1.1.1.1, hr.1.1.1.1.1.1.2⟩, hr.1.1.1.1.1.2⟩,
        hr.1.1.1.1.2⟩, ?_⟩, hr.1.1.2⟩, hr.1.2⟩, hr.2⟩
      have h2 := hr.1.1.1.2
      simp only [clauseMinNights, decide_eq_true_iff] at h2 ⊢
      omega
  | reviewsActivate f m =>
      simp only [rowMask, Bool.and_eq_true] at hr ⊢
      exact ⟨⟨⟨⟨⟨⟨⟨hr.1.1.1.1.1.1.1, hr.1.1.1.1.1.1.2⟩, hr.1.1.1.1.1.2⟩,
        hr.1.1.1.1.2⟩, hr.1.1.1.2⟩, by simp [clauseMinReviews]⟩, hr.1.2⟩, hr.2⟩
  | reviewsRaise f m1 m2 hm =>
      simp only [rowMask, Bool.and_eq_true] at hr ⊢
      refine ⟨⟨⟨⟨⟨⟨⟨hr.1.1.1.1.1.1.1, hr.1.1.1.1.1.1.2⟩, hr.1.1.1.1.1.2⟩,
        hr.1.1.1.1.2⟩, hr.1.1.1.2⟩, ?_⟩, hr.1.2⟩, hr.2⟩
      have h2 := hr.1.1.2
      simp only [clauseMinReviews] at h2 ⊢
      by_cases h1p : 0 < m1
      · have h2p : 0 < m2 := lt_of_lt_of_le h1p hm
        simp only [h2p, if_true, ge_iff_le, decide_eq_true_iff] at h2
        simp only [h1p, if_true, ge_iff_le, decide_eq_true_iff]
        omega
      · simp [h1p]
  | hostCatActivate f s =>
      simp only [rowMask, Bool.and_eq_true] at hr ⊢
      exact ⟨⟨⟨⟨⟨⟨⟨hr.1.1.1.1.1.1.1, hr.1.1.1.1.1.1.2⟩, hr.1.1.1.1.1.2⟩,
        hr.1.1.1.1.2⟩, hr.1.1.1.2⟩, hr.1.1.2⟩, by simp [clauseHostCategory]⟩, hr.2⟩
  | hostCatFromVacuous f s1 s2 hvac =>
      simp only [rowMask, Bool.and_eq_true] at hr ⊢
      refine ⟨⟨⟨⟨⟨⟨⟨hr.1.1.1.1.1.1.1, hr.1.1.1.1.1.1.2⟩, hr.1.1.1.1.1.2⟩,
        hr.1.1.1.1.2⟩, hr.1.1.1.2⟩, hr.1.1.2⟩, ?_⟩, hr.2⟩
      rcases hvac with hv | hv <;> simp [clauseHostCategory, hv]
  | commercialActivate f b =>
      simp only [rowMask, Bool.and_eq_true] at hr ⊢
      exact ⟨⟨⟨⟨⟨⟨⟨hr.1.1.1.1.1.1.1, hr.1.1.1.1.1.1.2⟩, hr.1.1.1.1.1.2⟩,
        hr.1.1.1.1.2⟩, hr.1.1.1.2⟩, hr.1.1.2⟩, hr.1.2⟩,
        by simp [clauseCommercialOnly]⟩
  | commercialTurnOn f b =>
      simp only [rowMask, Bool.and_eq_true] at hr ⊢
      exact ⟨⟨⟨⟨⟨⟨⟨hr.1.1.1.1.1.1.1, hr.1.1.1.1.1.1.2⟩, hr.1.1.1.1.1.2⟩,
        hr.1.1.1.1.2⟩, hr.1.1.1.2⟩, hr.1.1.2⟩, hr.1.2⟩,
        by simp [clauseCommercialOnly]⟩

/-- C7: Monotonicity under tightening: when two `FilterSpec`s differ in
exactly one field and the second is at least as restrictive there
(narrower price range, nonempty subset of boroughs/room types, higher
review floor, lower nights cap, a newly activated clause, ...), the second
never yields more rows. -/
theorem c7_tightening_monotone (df : List Row) (f1 f2 : Filters)
    (h : TightensOneField f1 f2) :
    (filterRows f2 df).length ≤ (filterRows f1 df).length :=
  filterRows_length_mono df f1 f2 (rowMask_tighten f1 f2 h)

/-- Witness for C7: narrowing the price range [50, 500] to [100, 200] on
the one-row demo dataset does not increase the row count. -/
theorem c7_tightening_monotone_witness :
    (filterRows { Filters.empty with price_range := some (100, 200) } [demoRow]).length ≤
      (filterRows { Filters.empty with price_range := some (50, 500) } [demoRow]).length :=
  c7_tightening_monotone [demoRow] _ _
    (TightensOneField.priceNarrow Filters.empty 50 500 100 200
      (by norm_num) (by norm_num))

/-! ### Descending-sort helpers -/

theorem sortDescBy_pairwise {α : Type} (key : α → ℚ) (l : List α) :
    List.Pairwise (fun a b => key b ≤ key a) (sortDescBy key l) := by
  haveI : IsTotal α (fun a b => key b ≤ key a) :=
    ⟨fun a b => le_total (key b) (key a)⟩
  haveI : IsTrans α (fun a b => key b ≤ key a) :=
    ⟨fun _ _ _ h1 h2 => le_trans h2 h1⟩
  exact List.sorted_insertionSort _ l

theorem mem_sortDescBy {α : Type} (key : α → ℚ) (l : List α) (a : α) :
    a ∈ sortDescBy key l ↔ a ∈ l :=
  (List.perm_insertionSort _ l).mem_iff

theorem length_sortDescBy {α : Type} (key : α → ℚ) (l : List α) :
    (sortDescBy key l).length = l.length :=
  (List.perm_insertionSort _ l).length_eq

/-- C4: The two value-score formulas are distinct and used where stated:
at load time `value_score = reviews/(price+1) * 100` (exactly 100 times the
query-side score), while `get_top_value_listings` restricts to
`minimum_nights ≤ 7`, recomputes `reviews/(price+1)` with no ×100 scale,
ranks descending by that score, and returns at most `n` entries. -/
theorem c4_value_score_formulas (raw : List RawRow) (fd : List Row) (n : ℕ) :
    (∀ row ∈ process_dataframe raw,
        row.value_score = (row.number_of_reviews : ℚ) / (row.price + 1) * 100 ∧
        row.value_score = (topValueEntry row).value_score * 100) ∧
    (∀ e ∈ get_top_value_listings n (some fd),
        e.minimum_nights ≤ 7 ∧
        e.value_score = (e.number_of_reviews : ℚ) / (e.price + 1) ∧
        ∃ r ∈ fd, r.minimum_nights ≤ 7 ∧ e = topValueEntry r) ∧
    List.Pairwise (fun a b => b.value_score ≤ a.value_score)
      (get_top_value_listings n (some fd)) ∧
    (get_top_value_listings n (some fd)).length =
      min n (fd.filter (fun r => decide (r.minimum_nights ≤ 7))).length := by
  refine ⟨fun row hrow => ?_, fun e he => ?_, ?_, ?_⟩
  · simp only [process_dataframe, List.mem_map] at hrow
    obtain ⟨r', hr', rfl⟩ := hrow
    constructor
    · simp [deriveRow]
    · simp [deriveRow, topValueEntry]
  · simp only [get_top_value_listings] at he
    split at he
    · simp at he
    · have he' := List.take_subset n _ he
      rw [mem_sortDescBy, List.mem_map] at he'
      obtain ⟨r, hr, rfl⟩ := he'
      rw [List.mem_filter, decide_eq_true_iff] at hr
      exact ⟨hr.2, rfl, r, hr.1, hr.2, rfl⟩
  · simp only [get_top_value_listings]
    split
    · simp
    · exact (sortDescBy_pairwise _ _).sublist (List.take_sublist _ _)
  · simp only [get_top_value_listings]
    split
    · rename_i hemp
      rw [List.isEmpty_iff] at hemp
      simp [hemp]
    · rw [List.length_take, length_sortDescBy, List.length_map]

/-- Witness for C4: on the one-row demo view the single entry of
`get_top_value_listings` has the unscaled score and a practical-stay
minimum-nights value. -/
theorem c4_value_score_formulas_witness :
    (topValueEntry demoRow).minimum_nights ≤ 7 ∧
    (topValueEntry demoRow).value_score =
      ((topValueEntry demoRow).number_of_reviews : ℚ) /
        ((topValueEntry demoRow).price + 1) ∧
    ∃ r ∈ [demoRow], r.minimum_nights ≤ 7 ∧ topValueEntry demoRow = topValueEntry r :=
  (c4_value_score_formulas [rawDemo] [demoRow] 1).2.1 _ (List.Mem.head _)

/-- A concrete Brooklyn row with price 150 and availability 200 (the
spec's ROI scenario segment). -/
def brookRow : Row :=
  { demoRow with
    neighbourhood_group := "Brooklyn"
    price := 150
    availability_365 := 200 }

/-- C9: `get_roi_data` groups by `(neighbourhood_group, room_type)`
pairs present in the view (each listed at most once), computes that
group's medians via `roiEntry`, sets revenue to
`median_price * median_availability * 0.7`, sorts descending by revenue,
and truncates to `top_n`; a segment with median price 150 and median
availability 200 gets revenue 21000. -/
theorem c9_roi_by_segment (fd : List Row) (top_n : ℕ) :
    (∀ e ∈ get_roi_data top_n (some fd),
        (∃ r ∈ fd, r.neighbourhood_group = e.neighbourhood_group ∧
          r.room_type = e.room_type) ∧
        e = roiEntry fd (e.neighbourhood_group, e.room_type) ∧
        e.estimated_annual_revenue =
          e.price * e.availability_365 * (0.7 : ℚ)) ∧
    List.Pairwise
      (fun a b => b.estimated_annual_revenue ≤ a.estimated_annual_revenue)
      (get_roi_data top_n (some fd)) ∧
    (get_roi_data top_n (some fd)).length =
      min top_n ((fd.map fun r => (r.neighbourhood_group, r.room_type)).dedup).length ∧
    ((get_roi_data top_n (some fd)).map
        fun e => (e.neighbourhood_group, e.room_type)).Nodup ∧
    (∀ e ∈ get_roi_data top_n (some fd),
        e.price = 150 → e.availability_365 = 200 →
        e.estimated_annual_revenue = 21000) := by
  refine ⟨fun e he => ?_, ?_, ?_, ?_, fun e he h150 h200 => ?_⟩
  · simp only [get_roi_data] at he
    have he' := List.take_subset top_n _ he
    rw [mem_sortDescBy, List.mem_map] at he'
    obtain ⟨k, hk, rfl⟩ := he'
    rw [(List.perm_insertionSort pairLeStr _).mem_iff, List.mem_dedup,
      List.mem_map] at hk
    obtain ⟨r, hr, rfl⟩ := hk
    refine ⟨⟨r, hr, ?_, ?_⟩, ?_, ?_⟩
    · simp [roiEntry]
    · simp [roiEntry]
    · simp [roiEntry]
    · simp [roiEntry]
  · simp only [get_roi_data]
    exact (sortDescBy_pairwise _ _).sublist (List.take_sublist _ _)
  · simp only [get_roi_data]
    rw [List.length_take, length_sortDescBy, List.length_map,
      (List.perm_insertionSort pairLeStr _).length_eq]
  · simp only [get_roi_data]
    have hkeysnodup : (List.insertionSort pairLeStr
        ((fd.map fun r => (r.neighbourhood_group, r.room_type)).dedup)).Nodup :=
      (List.perm_insertionSort _ _).nodup_iff.mpr (List.nodup_dedup _)
    have hmapnodup : ((List.map (roiEntry fd) (List.insertionSort pairLeStr
        ((fd.map fun r => (r.neighbourhood_group, r.room_type)).dedup))).map
        fun e => (e.neighbourhood_group, e.room_type)).Nodup := by
      rw [List.map_map]
      have heq : ((fun e : ROIEntry => (e.neighbourhood_group, e.room_type)) ∘
          roiEntry fd) = id := by
        funext k
        simp [roiEntry]
      rw [heq, List.map_id]
      exact hkeysnodup
    exact ((List.take_sublist _ _).map _).nodup
      (((List.perm_insertionSort _ _).map _).nodup_iff.mpr hmapnodup)
  · simp only [get_roi_data] at he
    have he' := List.take_subset top_n _ he
    rw [mem_sortDescBy, List.mem_map] at he'
    obtain ⟨k, _, rfl⟩ := he'
    have hform : (roiEntry fd k).estimated_annual_revenue =
        (roiEntry fd k).price * (roiEntry fd k).availability_365 * (0.7 : ℚ) := by
      simp [roiEntry]
    rw [hform, h150, h200]
    norm_num

/-- Witness for C9: the one-row Brooklyn view yields the segment
(Brooklyn, Entire home/apt) with median price 150, median availability
200, and revenue `150 * 200 * 0.7 = 21000`. -/
theorem c9_roi_by_segment_witness :
    (roiEntry [brookRow] ("Brooklyn", "Entire home/apt")).estimated_annual_revenue
      = 21000 :=
  (c9_roi_by_segment [brookRow] 10).2.2.2.2 _ (List.Mem.head _) rfl rfl

/-! ### The base dataset is a frame of `apply_filters` -/

theorem apply_filters_preserves_df (st : LoadedState) (f : Filters) :
    (apply_filters st f).1.df = st.df := by
  by_cases h : (filterRows f st.df).isEmpty <;> simp [apply_filters, h]

/-- Any sequence of `apply_filters` calls, keeping only the states. -/
def apply_filters_seq (st : LoadedState) (fs : List Filters) : LoadedState :=
  fs.foldl (fun s f => (apply_filters s f).1) st

theorem apply_filters_seq_preserves_df (st : LoadedState) (fs : List Filters) :
    (apply_filters_seq st fs).df = st.df := by
  induction fs generalizing st with
  | nil => rfl
  | cons f fs ih =>
      unfold apply_filters_seq at ih ⊢
      rw [List.foldl_cons, ih, apply_filters_preserves_df]

theorem sortedDedupStr_sorted (l : List String) :
    List.Sorted (· ≤ ·) (sortedDedupStr l) :=
  List.sorted_insertionSort _ _

theorem sortedDedupStr_nodup (l : List String) :
    (sortedDedupStr l).Nodup :=
  (List.perm_insertionSort _ _).nodup_iff.mpr (List.nodup_dedup l)

/-- C10: `get_neighbourhoods_for_borough` reads the base dataset, not
the filtered view: its result is unchanged by any sequence of
`apply_filters` calls; the `'all'`, empty-list and `None` arguments all
return the sorted distinct neighbourhoods of the whole base dataset; and
the returned list is always sorted and duplicate-free. -/
theorem c10_neighbourhoods_from_base (st : LoadedState) (b : BoroughArg)
    (fs : List Filters) :
    get_neighbourhoods_for_borough (some (apply_filters_seq st fs).df) b =
      get_neighbourhoods_for_borough (some st.df) b ∧
    (get_neighbourhoods_for_borough (some st.df) (BoroughArg.strArg "all") =
        sortedDedupStr (st.df.map (·.neighbourhood)) ∧
     get_neighbourhoods_for_borough (some st.df) (BoroughArg.listArg []) =
        sortedDedupStr (st.df.map (·.neighbourhood)) ∧
     get_neighbourhoods_for_borough (some st.df) BoroughArg.noneArg =
        sortedDedupStr (st.df.map (·.neighbourhood))) ∧
    List.Sorted (· ≤ ·) (get_neighbourhoods_for_borough (some st.df) b) ∧
    (get_neighbourhoods_for_borough (some st.df) b).Nodup := by
  refine ⟨?_, ⟨?_, ?_, ?_⟩, ?_, ?_⟩
  · rw [apply_filters_seq_preserves_df]
  · simp [get_neighbourhoods_for_borough]
  · simp [get_neighbourhoods_for_borough]
  · simp [get_neighbourhoods_for_borough]
  · cases b with
    | strArg s =>
        simp only [get_neighbourhoods_for_borough]
        split <;> exact sortedDedupStr_sorted _
    | listArg l =>
        simp only [get_neighbourhoods_for_borough]
        split <;> exact sortedDedupStr_sorted _
    | noneArg => exact sortedDedupStr_sorted _
  · cases b with
    | strArg s =>
        simp only [get_neighbourhoods_for_borough]
        split <;> exact sortedDedupStr_nodup _
    | listArg l =>
        simp only [get_neighbourhoods_for_borough]
        split <;> exact sortedDedupStr_nodup _
    | noneArg => exact sortedDedupStr_nodup _

/-- C5: No-data tolerance of the whole query catalog.  First block: a
never-loaded manager (`filtered_df is None`, modelled as `none`) gets its
designated empty result from every query.  Second block: a loaded manager
with an empty filtered view gets an empty or zero/NaN-valued result from
every query (NaN modelled as `none`).  All queries are total functions of
the view, so no call can raise. -/
theorem c5_queries_tolerate_no_data :
    (get_stats none = none ∧
     get_neighbourhood_stats none = [] ∧
     get_room_type_stats none = [] ∧
     get_price_distribution none = ([], []) ∧
     (∀ n, get_top_hosts n none = []) ∧
     (∀ n, get_top_value_listings n none = []) ∧
     get_commercial_stats none = none ∧
     (∀ n, get_roi_data n none = []) ∧
     get_host_category_stats none = [] ∧
     get_monthly_review_trend none = [] ∧
     (∀ n, get_map_data n none = []) ∧
     get_missing_data_stats none = [] ∧
     get_data_quality_score none = QualityResult.noData ∧
     get_uncertainty_indicators none = none ∧
     (∀ b, get_neighbourhoods_for_borough none b = [])) ∧
    (get_stats (some []) =
        some { total_listings := 0, avg_price := none, median_price := none,
               total_hosts := 0, avg_reviews := none, total_reviews := 0,
               commercial_count := 0, avg_availability := none } ∧
     get_neighbourhood_stats (some []) = [] ∧
     get_room_type_stats (some []) = [] ∧
     (get_price_distribution (some [])).1 = List.replicate 50 0 ∧
     (∀ n, get_top_hosts n (some []) = []) ∧
     (∀ n, get_top_value_listings n (some []) = []) ∧
     get_commercial_stats (some []) =
        some ({ count := 0, median_price := 0, median_availability := 0,
                median_reviews := 0 },
              { count := 0, median_price := 0, median_availability := 0,
                median_reviews := 0 }) ∧
     (∀ n, get_roi_data n (some []) = []) ∧
     get_host_category_stats (some []) =
        [("Single (1)", 0), ("Small (2-5)", 0), ("Medium (6-10)", 0),
         ("Mega (10+)", 0)] ∧
     get_monthly_review_trend (some []) = [] ∧
     (∀ n, get_map_data n (some []) = []) ∧
     get_missing_data_stats (some []) = [] ∧
     get_data_quality_score (some []) = QualityResult.scored none 0 0 none 0 ∧
     get_uncertainty_indicators (some []) =
        some ({ mean := none, ci_lower := none, ci_upper := none,
                margin_of_error := none },
              { mean := none, ci_lower := none, ci_upper := none,
                margin_of_error := none })) := by
  refine ⟨⟨rfl, rfl, rfl, rfl, fun n => rfl, fun n => rfl, rfl, fun n => rfl,
    rfl, rfl, fun n => rfl, rfl, rfl, rfl, fun b => rfl⟩,
    ⟨rfl, rfl, rfl, by decide, fun n => ?_, fun n => rfl, rfl, fun n => ?_,
     rfl, rfl, fun n => ?_, rfl, rfl, rfl⟩⟩
  · simp [get_top_hosts, sortDescBy]
  · simp [get_roi_data, sortDescBy]
  · simp [get_map_data]

end AirbnbDM
